import Mathlib

/-!
Shallow embedding of `src/server.py` (an IMAP MCP server exposing six tools:
`view_email`, `delete_email`, `move_email`, `list_mailboxes`, `check_unseen`,
`search_emails`).

Modelling conventions:

* The `imaplib` connection is an external collaborator; its behaviour during
  one operation is captured by an `ImapServer` oracle recording, for each
  primitive command, whether it raises an exception and what it returns.
* Each Python tool function becomes a Lean function from the oracle (and the
  tool's arguments) to a pair: the trace of protocol events that happened, and
  an `Except PyErr` result mirroring "returned value" / "raised exception".
* The event `Ev.connect` is recorded only when `imaplib.IMAP4_SSL(SERVER)`
  succeeds, i.e. when a connection object actually comes into existence; every
  other event records the command being issued on an established connection.
  `Ev.logout` is recorded when `mail.logout()` runs on a bound connection;
  `logout` itself is modelled as non-raising.
* Python's `try: ... except Exception as e: mail.logout(); raise e` is
  modelled by `failWith`: if a connection object exists (`connected = true`)
  the logout event is appended and the original error is re-raised; if the
  initial `IMAP4_SSL` call itself raised, the local variable `mail` is unbound
  and evaluating `mail.logout()` in the handler raises a `NameError`
  (`PyErr.nameError`) that replaces the original error — exactly the CPython
  semantics of the source's handler.
* A parsed `email.message.Message` is a `EmailMessage`: its headers plus its
  MIME tree (`EmailPart`).  `get_payload(decode=True).decode()` on a part is
  `decodePayload`: `some s` when it produces the text `s`, `none` when the
  chain raises (multipart containers, binary or malformed payloads).
* Python `dict`s keyed by message id are association lists in insertion
  order; the ids produced by an IMAP SEARCH are pairwise distinct.
* Listing lines (`item.decode()` in `list_mailboxes`) are `List Char`, so
  that Python's `str.split('"."')` and `str.replace(" ","")` can be modelled
  character by character (`splitQDQ`, filtering spaces).
-/

namespace ImapMcp

mutual

/-- MIME tree of a parsed message: a part is either a simple (non-multipart)
part with a content type and a decodable-or-not payload, or a multipart
container with a list of sub-parts. `PartList` is an inlined list so that the
tree admits mutual structural recursion. -/
inductive EmailPart where
  | leaf (ctype : String) (payload : Option String)
  | multi (ctype : String) (parts : PartList)

/-- List of sibling MIME parts (inlined for mutual structural recursion). -/
inductive PartList where
  | nil
  | cons (p : EmailPart) (ps : PartList)

end

/-- Result of `part.get_content_type()`. -/
def ctypeOf : EmailPart → String
  | .leaf c _ => c
  | .multi c _ => c

/-- Result of `part.get_payload(decode=True).decode()`: `some s` when it
produces text `s`; `none` when the chain raises (for a multipart container
`get_payload(decode=True)` is `None`, so `.decode()` raises; for a simple part
the payload may fail to decode). -/
def decodePayload : EmailPart → Option String
  | .leaf _ p => p
  | .multi _ _ => none

mutual

/-- Python `Message.walk()`: depth-first, top-down traversal that yields the
message itself first and then every nested part in document order. -/
def walkParts : EmailPart → List EmailPart
  | .leaf c p => [.leaf c p]
  | .multi c ps => .multi c ps :: walkList ps

/-- Concatenated walks of a list of sibling parts. -/
def walkList : PartList → List EmailPart
  | .nil => []
  | .cons p ps => walkParts p ++ walkList ps

end

/-- The `for part in email_message.walk(): ...` loop of `extract_body`
(src/server.py lines 24-31), threading the Python locals `body` and
`content_type`.  Each iteration assigns `content_type` from the part, then
tries to decode: on success with non-empty text it breaks, on success with
empty text it continues with `body = ""`, and on a decode exception it
continues with `body` unchanged. -/
def scanParts : List EmailPart → String → String → String × String
  | [], body, ctype => (body, ctype)
  | p :: rest, body, _ =>
    match decodePayload p with
    | some s => if s = "" then scanParts rest s (ctypeOf p) else (s, ctypeOf p)
    | none => scanParts rest body (ctypeOf p)

/-- The helper `extract_body(email_message)` of src/server.py lines 20-35,
applied to the message's MIME tree.  Multipart: scan the walk of the tree with
`body` initialised to `""` (the loop always runs at least once, so the initial
`content_type` value is never returned for a well-formed multipart).
Single-part: decode the payload directly — a decode failure here is not
caught and propagates (`Except.error`). -/
def extract_body : EmailPart → Except Unit (String × String)
  | .multi c ps => Except.ok (scanParts (walkParts (.multi c ps)) "" "")
  | .leaf c p =>
    match p with
    | some s => Except.ok (s, c)
    | none => Except.error ()

/-- A parsed `email.message.Message`: the headers read by the tools plus the
MIME tree that `extract_body` consumes.  `email_message.is_multipart()` holds
exactly when `content` is a `.multi` node. -/
structure EmailMessage where
  subject : Option String
  sender : Option String
  date : Option String
  content : EmailPart

/-- Protocol events observable on the connection during one operation. -/
inductive Ev where
  | connect
  | login
  | select (mailbox : String)
  | fetch (id : String) (query : String)
  | store (id : String) (cmd : String) (flags : String)
  | expunge
  | copy (id : String) (target : String)
  | listCmd
  | search (args : List String)
  | logout
deriving DecidableEq, Repr

/-- Python exceptions that can escape a tool function in the model. -/
inductive PyErr where
  | imapError
  | notFound (id : String)
  | nameError
  | decodeError
  | indexError
deriving DecidableEq, Repr

/-- Oracle describing the behaviour of the remote IMAP server (via `imaplib`)
during one operation.  `fetchResp`, `copyResp`, `listResp`, `searchResp`
return `Except.error ()` when the primitive raises, and otherwise the
`(status, payload)` pair the primitive returns. -/
structure ImapServer where
  connectOK : Bool
  loginOK : Bool
  selectOK : Bool
  fetchResp : String → Except Unit (String × EmailMessage)
  storeOK : Bool
  expungeOK : Bool
  copyResp : String → String → Except Unit String
  listResp : Except Unit (String × List (List Char))
  searchResp : List String → Except Unit (String × List String)

/-- The `except Exception as e: mail.logout(); raise e` handler shared by all
six tools.  If a connection object exists, logout runs and the original error
is re-raised.  If the initial `IMAP4_SSL` call itself failed, `mail` is an
unbound local, so `mail.logout()` raises `NameError`, which replaces the
original exception (the `raise e` line is never reached). -/
def failWith {α : Type} (connected : Bool) (tr : List Ev) (e : PyErr) :
    List Ev × Except PyErr α :=
  if connected then (tr ++ [Ev.logout], Except.error e)
  else (tr, Except.error PyErr.nameError)

/-- Result dictionary of `view_email`. -/
structure ViewResult where
  subject : Option String
  sender : Option String
  body : String
  ctype : String
deriving DecidableEq, Repr

/-- Result dictionary of `delete_email`. -/
structure DeleteConfirmation where
  status : String
  email_id : String
  mailbox : String
deriving DecidableEq, Repr

/-- Result dictionary of `move_email`. -/
structure MoveConfirmation where
  status : String
  email_id : String
  target_mailbox : String
deriving DecidableEq, Repr

/-- Per-id entry of the dictionaries returned by `check_unseen` and
`search_emails`: the `Subject` and `Date` headers only. -/
structure HeaderSummary where
  subject : Option String
  date : Option String
deriving DecidableEq, Repr

/-- The tool `view_email(email_id, mailbox)` of src/server.py lines 39-72:
connect, login, select, fetch `(RFC822)`; on status `"OK"` parse the message,
extract the body and return the result dictionary — returning directly from
inside the `try` block, without any `logout`; on any other status raise
`Exception(f"Email \x7bemail_id\x7d not found")`, which the handler turns
into logout-then-re-raise. -/
def view_email (srv : ImapServer) (email_id : String) (mailbox : String) :
    List Ev × Except PyErr ViewResult :=
  if srv.connectOK = false then failWith false [] PyErr.imapError else
  if srv.loginOK = false then failWith true [Ev.connect, Ev.login] PyErr.imapError else
  if srv.selectOK = false then
    failWith true [Ev.connect, Ev.login, Ev.select mailbox] PyErr.imapError else
  let tr := [Ev.connect, Ev.login, Ev.select mailbox, Ev.fetch email_id "(RFC822)"]
  match srv.fetchResp email_id with
  | Except.error _ => failWith true tr PyErr.imapError
  | Except.ok (status, msg) =>
    if status = "OK" then
      match extract_body msg.content with
      | Except.error _ => failWith true tr PyErr.decodeError
      | Except.ok bc => (tr, Except.ok ⟨msg.subject, msg.sender, bc.1, bc.2⟩)
    else failWith true tr (PyErr.notFound email_id)

/-- The tool `delete_email(email_id, mailbox)` of src/server.py lines 76-100:
connect, login, select, `store +FLAGS (DELETED)`, `expunge`, logout, then
return the confirmation dictionary. -/
def delete_email (srv : ImapServer) (email_id : String) (mailbox : String) :
    List Ev × Except PyErr DeleteConfirmation :=
  if srv.connectOK = false then failWith false [] PyErr.imapError else
  if srv.loginOK = false then failWith true [Ev.connect, Ev.login] PyErr.imapError else
  if srv.selectOK = false then
    failWith true [Ev.connect, Ev.login, Ev.select mailbox] PyErr.imapError else
  let tr := [Ev.connect, Ev.login, Ev.select mailbox,
    Ev.store email_id "+FLAGS" "(DELETED)"]
  if srv.storeOK = false then failWith true tr PyErr.imapError else
  if srv.expungeOK = false then failWith true (tr ++ [Ev.expunge]) PyErr.imapError else
  (tr ++ [Ev.expunge, Ev.logout], Except.ok ⟨"success", email_id, mailbox⟩)

/-- The tool `move_email(email_id, target_mailbox)` of src/server.py lines
104-129: connect, login, select `"INBOX"` (the source mailbox is hard-coded),
`copy`, `store +FLAGS (DELETED)`, `expunge`, logout, confirmation.  The
`(status, data)` pair returned by `mail.copy` is discarded, so a copy that the
server answers with status `"NO"` does not stop the store/expunge steps; only
a copy that raises does. -/
def move_email (srv : ImapServer) (email_id : String) (target_mailbox : String) :
    List Ev × Except PyErr MoveConfirmation :=
  if srv.connectOK = false then failWith false [] PyErr.imapError else
  if srv.loginOK = false then failWith true [Ev.connect, Ev.login] PyErr.imapError else
  if srv.selectOK = false then
    failWith true [Ev.connect, Ev.login, Ev.select "INBOX"] PyErr.imapError else
  let tr := [Ev.connect, Ev.login, Ev.select "INBOX",
    Ev.copy email_id target_mailbox]
  match srv.copyResp email_id target_mailbox with
  | Except.error _ => failWith true tr PyErr.imapError
  | Except.ok _copyStatus =>
    let tr := tr ++ [Ev.store email_id "+FLAGS" "(DELETED)"]
    if srv.storeOK = false then failWith true tr PyErr.imapError else
    if srv.expungeOK = false then failWith true (tr ++ [Ev.expunge]) PyErr.imapError else
    (tr ++ [Ev.expunge, Ev.logout], Except.ok ⟨"success", email_id, target_mailbox⟩)

/-- Python `line.split('"."')` on a listing line, character by character:
scan left to right; each occurrence of the three-character separator
quote-dot-quote ends the current chunk.  `acc` is the current chunk reversed. -/
def splitQDQ (acc : List Char) : List Char → List (List Char)
  | [] => [acc.reverse]
  | '\"' :: '.' :: '\"' :: rest2 => acc.reverse :: splitQDQ [] rest2
  | c :: rest => splitQDQ (c :: acc) rest

/-- Whether the separator quote-dot-quote occurs somewhere in the line. -/
def hasQDQ : List Char → Bool
  | [] => false
  | '\"' :: '.' :: '\"' :: _ => true
  | _ :: rest => hasQDQ rest

/-- One element of the list comprehension in `list_mailboxes` (src/server.py
line 145): `item.decode().split('"."')[1].replace(" ","")`.  `none` models the
`IndexError` raised by `[1]` when the line contains no separator. -/
def parse_listing_line (l : List Char) : Option (List Char) :=
  ((splitQDQ [] l)[1]?).map (fun s => s.filter (fun c => !(c == ' ')))

/-- Sequencing of the list comprehension: the first element that raises
aborts the whole comprehension. -/
def seqOpt {α : Type} : List (Option α) → Option (List α)
  | [] => some []
  | o :: rest =>
    match o with
    | none => none
    | some a => (seqOpt rest).map (fun t => a :: t)

/-- The tool `list_mailboxes()` of src/server.py lines 133-150: connect,
login (no select), `mail.list()` — whose status is ignored — then the list
comprehension over the returned lines, logout, and the resulting names in the
order the server returned the lines. -/
def list_mailboxes (srv : ImapServer) : List Ev × Except PyErr (List (List Char)) :=
  if srv.connectOK = false then failWith false [] PyErr.imapError else
  if srv.loginOK = false then failWith true [Ev.connect, Ev.login] PyErr.imapError else
  let tr := [Ev.connect, Ev.login, Ev.listCmd]
  match srv.listResp with
  | Except.error _ => failWith true tr PyErr.imapError
  | Except.ok (_status, data) =>
    match seqOpt (data.map parse_listing_line) with
    | none => failWith true tr PyErr.indexError
    | some names => (tr ++ [Ev.logout], Except.ok names)

/-- The per-id fetch loop shared by `check_unseen` (src/server.py lines
170-175) and `search_emails` (lines 212-217): for each id fetch `(RFC822)`;
when the fetch returns status `"OK"` record `\x7bSubject, Date\x7d` under the
id, when it returns any other status record nothing, and when it raises the
loop aborts with the exception. -/
def fetchLoop (srv : ImapServer) :
    List String → List Ev × Except Unit (List (String × HeaderSummary))
  | [] => ([], Except.ok [])
  | id :: rest =>
    match srv.fetchResp id with
    | Except.error _ => ([Ev.fetch id "(RFC822)"], Except.error ())
    | Except.ok (status, msg) =>
      let r := fetchLoop srv rest
      (Ev.fetch id "(RFC822)" :: r.1,
        r.2.map (fun tail =>
          if status = "OK" then (id, ⟨msg.subject, msg.date⟩) :: tail else tail))

/-- The tool `check_unseen()` of src/server.py lines 154-181: connect, login,
select `"INBOX"`, `search(None, "UNSEEN")` — whose status is ignored — then
the per-id fetch loop, logout, and the accumulated dictionary. -/
def check_unseen (srv : ImapServer) :
    List Ev × Except PyErr (List (String × HeaderSummary)) :=
  if srv.connectOK = false then failWith false [] PyErr.imapError else
  if srv.loginOK = false then failWith true [Ev.connect, Ev.login] PyErr.imapError else
  if srv.selectOK = false then
    failWith true [Ev.connect, Ev.login, Ev.select "INBOX"] PyErr.imapError else
  let tr := [Ev.connect, Ev.login, Ev.select "INBOX", Ev.search ["UNSEEN"]]
  match srv.searchResp ["UNSEEN"] with
  | Except.error _ => failWith true tr PyErr.imapError
  | Except.ok (_status, ids) =>
    let r := fetchLoop srv ids
    match r.2 with
    | Except.error _ => failWith true (tr ++ r.1) PyErr.imapError
    | Except.ok entries => (tr ++ r.1 ++ [Ev.logout], Except.ok entries)

/-- Result of `search_emails`: either the sentinel list
`["No matching emails found."]` returned when the search status is not
`"OK"`, or the dictionary of header summaries. -/
inductive SearchOutcome where
  | sentinel (msgs : List String)
  | found (entries : List (String × HeaderSummary))
deriving DecidableEq, Repr

/-- The tool `search_emails(criterion, value, mailbox)` of src/server.py
lines 184-223: connect, login, select, `search(None, criterion, value)`; if
the search status is not `"OK"` return the sentinel list (directly from
inside the `try`, without logout); otherwise run the per-id fetch loop,
logout, and return the dictionary. -/
def search_emails (srv : ImapServer) (criterion value mailbox : String) :
    List Ev × Except PyErr SearchOutcome :=
  if srv.connectOK = false then failWith false [] PyErr.imapError else
  if srv.loginOK = false then failWith true [Ev.connect, Ev.login] PyErr.imapError else
  if srv.selectOK = false then
    failWith true [Ev.connect, Ev.login, Ev.select mailbox] PyErr.imapError else
  let tr := [Ev.connect, Ev.login, Ev.select mailbox, Ev.search [criterion, value]]
  match srv.searchResp [criterion, value] with
  | Except.error _ => failWith true tr PyErr.imapError
  | Except.ok (status, ids) =>
    if status = "OK" then
      let r := fetchLoop srv ids
      match r.2 with
      | Except.error _ => failWith true (tr ++ r.1) PyErr.imapError
      | Except.ok entries =>
        (tr ++ r.1 ++ [Ev.logout], Except.ok (SearchOutcome.found entries))
    else
      (tr, Except.ok (SearchOutcome.sentinel ["No matching emails found."]))

/-- Concrete single-part message used as a fixture by the evaluations. -/
def sampleMsg : EmailMessage :=
  { subject := some "hi", sender := some "a@b", date := some "Mon",
    content := EmailPart.leaf "text/plain" (some "hello") }

/-- Server behaviour on which every primitive succeeds with status `"OK"`:
one unseen message id `"1"`, one listing line `(\HasNoChildren) "." "INBOX"`. -/
def okServer : ImapServer :=
  { connectOK := true, loginOK := true, selectOK := true,
    fetchResp := fun _ => Except.ok ("OK", sampleMsg),
    storeOK := true, expungeOK := true,
    copyResp := fun _ _ => Except.ok "OK",
    listResp := Except.ok ("OK", ["(\\HasNoChildren) \".\" \"INBOX\"".data]),
    searchResp := fun _ => Except.ok ("OK", ["1"]) }

/-- The four-part message of the spec's testable property for multipart
extraction: an empty text part, an undecodable binary part, a non-empty text
part, and an HTML part, in that order. -/
def fourPartMsg : EmailPart :=
  EmailPart.multi "multipart/mixed"
    (PartList.cons (EmailPart.leaf "text/plain" (some ""))
      (PartList.cons (EmailPart.leaf "application/octet-stream" none)
        (PartList.cons (EmailPart.leaf "text/plain" (some "real text"))
          (PartList.cons (EmailPart.leaf "text/html" (some "<p>x</p>"))
            PartList.nil))))

/-- Declarative reading of spec section 4.3 for the multipart case: the
decoded text and content type of the first part in the walk whose decoded
text is non-empty; `none` when no part yields non-empty text. -/
def firstNonEmptyText : List EmailPart → Option (String × String)
  | [] => none
  | p :: rest =>
    match decodePayload p with
    | some s => if s = "" then firstNonEmptyText rest else some (s, ctypeOf p)
    | none => firstNonEmptyText rest

/-- Content type of the last part of a walk (`d` when the walk is empty). -/
def lastCtype (d : String) : List EmailPart → String
  | [] => d
  | p :: rest => lastCtype (ctypeOf p) rest

/-- Server whose search transaction reports status `"NO"`. -/
def rejectingServer : ImapServer :=
  { okServer with searchResp := fun _ => Except.ok ("NO", []) }

/-- Server whose fetch transaction reports status `"NO"`. -/
def fetchNoServer : ImapServer :=
  { okServer with fetchResp := fun _ => Except.ok ("NO", sampleMsg) }

/-- Server whose initial `IMAP4_SSL` connect raises. -/
def unreachableServer : ImapServer :=
  { okServer with connectOK := false }

/-- Server that answers the COPY command with status `"NO"` (a rejected copy
that returns rather than raises), every other step succeeding. -/
def copyRejectedServer : ImapServer :=
  { okServer with copyResp := fun _ _ => Except.ok "NO" }

/-- Whether an event is an IMAP FETCH of the `RFC822` data item: per the IMAP
protocol, `RFC822` is equivalent to `BODY[]` and returns the complete raw
message, body included. -/
def fetchesWholeMessage : Ev → Bool
  | Ev.fetch _ q => q == "(RFC822)"
  | _ => false

/-- The ids among `ids` whose fetch transaction returns with status `"OK"`. -/
def okIds (srv : ImapServer) (ids : List String) : List String :=
  ids.filter (fun id =>
    match srv.fetchResp id with
    | Except.ok (st, _) => st == "OK"
    | Except.error _ => false)

/-- Server returning two matching ids, of which `"1"` fetches with status
`"OK"` and `"2"` with status `"NO"` (without raising). -/
def mixedFetchServer : ImapServer :=
  { okServer with
    searchResp := fun _ => Except.ok ("OK", ["1", "2"]),
    fetchResp := fun id =>
      Except.ok (if id = "2" then "NO" else "OK", sampleMsg) }

/-- Whether a line starts with the two characters dot, double-quote (the tail
of the separator token). -/
def startsDQ : List Char → Bool
  | '.' :: '\"' :: _ => true
  | _ => false

lemma scanParts_eq_of_first_some (l : List EmailPart) (r : String × String)
    (h : firstNonEmptyText l = some r) (b c : String) : scanParts l b c = r := by
  induction l generalizing b c with
  | nil => simp [firstNonEmptyText] at h
  | cons p rest ih =>
    cases hp : decodePayload p with
    | none =>
      simp only [firstNonEmptyText, hp] at h
      simp only [scanParts, hp]
      exact ih h b (ctypeOf p)
    | some s =>
      by_cases hs : s = ""
      · simp only [firstNonEmptyText, hp, if_pos hs] at h
        simp only [scanParts, hp, if_pos hs]
        exact ih h s (ctypeOf p)
      · simp only [firstNonEmptyText, hp, if_neg hs] at h
        simp only [scanParts, hp, if_neg hs]
        exact (Option.some_inj.mp h)

lemma scanParts_eq_of_first_none (l : List EmailPart)
    (h : firstNonEmptyText l = none) (c : String) :
    scanParts l "" c = ("", lastCtype c l) := by
  induction l generalizing c with
  | nil => simp [scanParts, lastCtype]
  | cons p rest ih =>
    cases hp : decodePayload p with
    | none =>
      simp only [firstNonEmptyText, hp] at h
      simp only [scanParts, hp, lastCtype]
      exact ih h (ctypeOf p)
    | some s =>
      by_cases hs : s = ""
      · simp only [firstNonEmptyText, hp, if_pos hs] at h
        simp only [scanParts, hp, if_pos hs, lastCtype, hs]
        exact ih h (ctypeOf p)
      · simp only [firstNonEmptyText, hp, if_neg hs] at h
        exact absurd h (by simp)

lemma fetchLoop_mem_fetch (srv : ImapServer) (ids : List String) (id q : String)
    (h : Ev.fetch id q ∈ (fetchLoop srv ids).1) : q = "(RFC822)" := by
  induction ids with
  | nil => simp [fetchLoop] at h
  | cons i rest ih =>
    cases hp : srv.fetchResp i with
    | error e =>
      simp only [fetchLoop, hp] at h
      simp at h
      exact h.2
    | ok p =>
      simp only [fetchLoop, hp] at h
      simp at h
      rcases h with h | h
      · exact h.2
      · exact ih h

lemma fetchLoop_all_returned (srv : ImapServer) (ids : List String)
    (h : ∀ id ∈ ids, ∃ p, srv.fetchResp id = Except.ok p) :
    ∃ entries, (fetchLoop srv ids).2 = Except.ok entries ∧
      entries.map Prod.fst = okIds srv ids := by
  induction ids with
  | nil => exact ⟨[], rfl, rfl⟩
  | cons i rest ih =>
    obtain ⟨⟨st, msg⟩, hp⟩ := h i (List.mem_cons_self i rest)
    obtain ⟨es, he, hm⟩ := ih (fun j hj => h j (List.mem_cons_of_mem i hj))
    by_cases hst : st = "OK"
    · refine ⟨(i, ⟨msg.subject, msg.date⟩) :: es, ?_, ?_⟩
      · simp [fetchLoop, hp, he, hst, Except.map]
      · simp [okIds, hp, hst, List.filter_cons] at hm ⊢
        exact hm
    · refine ⟨es, ?_, ?_⟩
      · simp [fetchLoop, hp, he, hst, Except.map]
      · simp [okIds, hp, hst, List.filter_cons] at hm ⊢
        exact hm

lemma splitQDQ_sep (acc rest : List Char) :
    splitQDQ acc ('\"' :: '.' :: '\"' :: rest) = acc.reverse :: splitQDQ [] rest :=
  rfl

lemma splitQDQ_cons_no (acc : List Char) (c : Char) (rest : List Char)
    (h : ((c == '\"') && startsDQ rest) = false) :
    splitQDQ acc (c :: rest) = splitQDQ (c :: acc) rest := by
  rw [splitQDQ.eq_def]
  split
  · rename_i heq; exact absurd heq (by simp)
  · rename_i rest2 heq
    injection heq with h1 h2
    subst h1; subst h2
    simp [startsDQ] at h
  · rename_i hx heq
    injection heq with h1 h2
    subst h1; subst h2
    rfl

lemma hasQDQ_cons_no (c : Char) (rest : List Char)
    (h : ((c == '\"') && startsDQ rest) = false) :
    hasQDQ (c :: rest) = hasQDQ rest := by
  rw [hasQDQ.eq_def]
  split
  · rename_i heq; exact absurd heq (by simp)
  · rename_i rest2 heq
    injection heq with h1 h2
    subst h1; subst h2
    simp [startsDQ] at h
  · rename_i hx heq
    injection heq with h1 h2
    subst h1; subst h2
    rfl

lemma startsDQ_true (l : List Char) (h : startsDQ l = true) :
    ∃ r, l = '.' :: '\"' :: r := by
  rw [startsDQ.eq_def] at h
  split at h
  · rename_i r; exact ⟨r, rfl⟩
  · exact absurd h (by simp)

lemma splitQDQ_append_no_quote (pre : List Char) (h : '\"' ∉ pre)
    (acc rest : List Char) :
    splitQDQ acc (pre ++ '\"' :: '.' :: '\"' :: rest) =
      (acc.reverse ++ pre) :: splitQDQ [] rest := by
  induction pre generalizing acc with
  | nil => simp [splitQDQ_sep]
  | cons a pre ih =>
    have ha : a ≠ '\"' := by
      rintro rfl; exact h (List.mem_cons_self _ _)
    have hb : ((a == '\"') && startsDQ (pre ++ '\"' :: '.' :: '\"' :: rest)) = false := by
      simp [ha]
    rw [List.cons_append, splitQDQ_cons_no _ _ _ hb,
      ih (fun hm => h (List.mem_cons_of_mem a hm))]
    simp

lemma splitQDQ_no_sep (l : List Char) (h : hasQDQ l = false) (acc : List Char) :
    splitQDQ acc l = [acc.reverse ++ l] := by
  induction l generalizing acc with
  | nil => simp [splitQDQ]
  | cons a rest ih =>
    cases hq : ((a == '\"') && startsDQ rest) with
    | true =>
      have ha : a = '\"' := by
        have := (Bool.and_eq_true _ _).mp hq
        exact eq_of_beq this.1
      obtain ⟨r, hr⟩ := startsDQ_true rest ((Bool.and_eq_true _ _).mp hq).2
      subst ha; subst hr
      simp [hasQDQ] at h
    | false =>
      rw [hasQDQ_cons_no _ _ hq] at h
      rw [splitQDQ_cons_no _ _ _ hq, ih h]
      simp

lemma parse_listing_line_shape (pre post : List Char) (hpre : '\"' ∉ pre)
    (hpost : hasQDQ post = false) :
    parse_listing_line (pre ++ '\"' :: '.' :: '\"' :: post) =
      some (post.filter (fun c => !(c == ' '))) := by
  unfold parse_listing_line
  rw [splitQDQ_append_no_quote pre hpre [] post, splitQDQ_no_sep post hpost []]
  simp

lemma seqOpt_map_some {α β : Type} (l : List α) (f : α → Option β) (g : α → β)
    (h : ∀ x ∈ l, f x = some (g x)) : seqOpt (l.map f) = some (l.map g) := by
  induction l with
  | nil => rfl
  | cons x xs ih =>
    simp only [List.map_cons, seqOpt, h x (List.mem_cons_self x xs),
      ih (fun y hy => h y (List.mem_cons_of_mem x hy))]
    rfl

/-- C1 (evaluation at the failing input): against a server on which every
step succeeds, `view_email` reaches the `return` inside the `try` block and
completes successfully with a trace that contains no logout at all — the one
connection that was opened is never closed, so the close-exactly-once
invariant fails on the success outcome of `view_email`. -/
theorem view_email_success_returns_without_logout :
    view_email okServer "1" "INBOX" =
      ([Ev.connect, Ev.login, Ev.select "INBOX", Ev.fetch "1" "(RFC822)"],
        Except.ok ⟨some "hi", some "a@b", "hello", "text/plain"⟩) ∧
    (view_email okServer "1" "INBOX").1.count Ev.logout = 0 :=
  ⟨rfl, rfl⟩

/-- C2 (evaluation at the failing input): when the initial connect raises, no
connection object exists, yet every tool's `except` handler evaluates
`mail.logout()` on the unbound local `mail`; the resulting `NameError`
replaces the original connection failure (`PyErr.imapError`), so the cleanup
step is not a no-op and the original error is not the one re-raised. -/
theorem connect_failure_raises_secondary_error :
    view_email unreachableServer "1" "INBOX" = ([], Except.error PyErr.nameError) ∧
    delete_email unreachableServer "1" "INBOX" = ([], Except.error PyErr.nameError) ∧
    move_email unreachableServer "1" "Archive" = ([], Except.error PyErr.nameError) ∧
    list_mailboxes unreachableServer = ([], Except.error PyErr.nameError) ∧
    check_unseen unreachableServer = ([], Except.error PyErr.nameError) ∧
    search_emails unreachableServer "SUBJECT" "x" "INBOX" =
      ([], Except.error PyErr.nameError) ∧
    PyErr.nameError ≠ PyErr.imapError :=
  ⟨rfl, rfl, rfl, rfl, rfl, rfl, by decide⟩

/-- C3: for a multipart message, `extract_body` walks the parts in document
order and returns the decoded text (with content type) of the first part
whose decoded text is non-empty, undecodable parts being skipped silently;
when no part yields non-empty text it returns the empty body paired with the
content type of the last walked part.  The model is a pure function, so the
result of repeated calls on the same input is identical (third conjunct), and
the spec's concrete scenario — parts ordered empty-text, undecodable binary,
non-empty text, HTML — returns the non-empty text part (first conjunct). -/
theorem extract_body_multipart_first_nonempty :
    extract_body fourPartMsg = Except.ok ("real text", "text/plain") ∧
    (∀ (c : String) (ps : PartList),
      extract_body (EmailPart.multi c ps) =
        Except.ok
          (match firstNonEmptyText (walkParts (EmailPart.multi c ps)) with
            | some r => r
            | none => ("", lastCtype "" (walkParts (EmailPart.multi c ps))))) ∧
    (∀ m : EmailPart, extract_body m = extract_body m) := by
  refine ⟨rfl, fun c ps => ?_, fun m => rfl⟩
  simp only [extract_body]
  cases h : firstNonEmptyText (walkParts (EmailPart.multi c ps)) with
  | some r => rw [scanParts_eq_of_first_some _ _ h]
  | none => rw [scanParts_eq_of_first_none _ h]

/-- C4 (evaluation at the failing input): `move_email` discards the status
returned by the copy transaction, so when the server rejects the copy with
status `"NO"` the engine does not abort: it still flags the source message
as deleted, expunges the source mailbox `"INBOX"`, and reports success. -/
theorem move_email_flags_despite_copy_failure :
    move_email copyRejectedServer "1" "Archive" =
      ([Ev.connect, Ev.login, Ev.select "INBOX", Ev.copy "1" "Archive",
        Ev.store "1" "+FLAGS" "(DELETED)", Ev.expunge, Ev.logout],
        Except.ok ⟨"success", "1", "Archive"⟩) :=
  rfl

/-- C5 counterexample: with one matching message id, both `check_unseen` and
`search_emails` issue a FETCH of the complete `RFC822` message for that id —
the message body is fetched (and then discarded), refuting the claim that
these operations fetch only a headers-only summary and no body. -/
theorem summary_ops_fetch_body_counterexample :
    (check_unseen okServer).1.any fetchesWholeMessage = true ∧
    (search_emails okServer "SUBJECT" "x" "INBOX").1.any fetchesWholeMessage = true :=
  ⟨rfl, rfl⟩

/-- C5 amended: for every server behaviour and every input, each FETCH
issued by `check_unseen` or `search_emails` requests the `(RFC822)` data
item — the complete raw message, body included — and never a headers-only
item; only the Subject and Date headers of each fetched message are kept in
the result. -/
theorem summary_ops_fetch_full_rfc822 (srv : ImapServer) (c v mb : String) :
    (∀ id q, Ev.fetch id q ∈ (check_unseen srv).1 → q = "(RFC822)") ∧
    (∀ id q, Ev.fetch id q ∈ (search_emails srv c v mb).1 → q = "(RFC822)") := by
  constructor
  · intro id q hm
    by_cases h1 : srv.connectOK = false
    · simp [check_unseen, failWith, h1] at hm
    by_cases h2 : srv.loginOK = false
    · simp [check_unseen, failWith, h1, h2] at hm
    by_cases h3 : srv.selectOK = false
    · simp [check_unseen, failWith, h1, h2, h3] at hm
    cases hsr : srv.searchResp ["UNSEEN"] with
    | error e => simp [check_unseen, failWith, h1, h2, h3, hsr] at hm
    | ok p =>
      obtain ⟨st, ids⟩ := p
      cases hfl : (fetchLoop srv ids).2 with
      | error e =>
        simp [check_unseen, failWith, h1, h2, h3, hsr, hfl] at hm
        exact fetchLoop_mem_fetch srv ids id q hm
      | ok entries =>
        simp [check_unseen, failWith, h1, h2, h3, hsr, hfl] at hm
        exact fetchLoop_mem_fetch srv ids id q hm
  · intro id q hm
    by_cases h1 : srv.connectOK = false
    · simp [search_emails, failWith, h1] at hm
    by_cases h2 : srv.loginOK = false
    · simp [search_emails, failWith, h1, h2] at hm
    by_cases h3 : srv.selectOK = false
    · simp [search_emails, failWith, h1, h2, h3] at hm
    cases hsr : srv.searchResp [c, v] with
    | error e => simp [search_emails, failWith, h1, h2, h3, hsr] at hm
    | ok p =>
      obtain ⟨st, ids⟩ := p
      by_cases hst : st = "OK"
      · cases hfl : (fetchLoop srv ids).2 with
        | error e =>
          simp [search_emails, failWith, h1, h2, h3, hsr, hst, hfl] at hm
          exact fetchLoop_mem_fetch srv ids id q hm
        | ok entries =>
          simp [search_emails, failWith, h1, h2, h3, hsr, hst, hfl] at hm
          exact fetchLoop_mem_fetch srv ids id q hm
      · simp [search_emails, failWith, h1, h2, h3, hsr, hst] at hm

/-- C6 counterexample: on the listing line `(\HasNoChildren) "." "INBOX"`,
`list_mailboxes` produces the seven-character name `"INBOX"` with the double
quotes still present — not the unquoted `INBOX` — so the surrounding quoting
is not stripped as the claim states. -/
theorem list_mailboxes_keeps_quotes_counterexample :
    (list_mailboxes okServer).2 = Except.ok ["\"INBOX\"".data] ∧
    "\"INBOX\"".data ≠ "INBOX".data ∧
    '\"' ∈ "\"INBOX\"".data :=
  ⟨rfl, by decide, by decide⟩

/-- C6 amended: for listing lines of the common shape `flags ++ '"."' ++
name-part` — where the flags segment contains no double quote and the name
part contains no further separator token — `list_mailboxes` returns, in the
order the server returned the lines, the name part with the hierarchy
delimiter token `"."` (and everything before it) stripped and every space
character removed, but with the double quotes around the mailbox name
retained, not stripped. -/
theorem list_mailboxes_strips_delimiter_keeps_quotes (srv : ImapServer)
    (st : String) (lines : List (List Char × List Char))
    (hc : srv.connectOK = true) (hl : srv.loginOK = true)
    (hlist : srv.listResp =
      Except.ok (st, lines.map (fun pq => pq.1 ++ '\"' :: '.' :: '\"' :: pq.2)))
    (hpre : ∀ pq ∈ lines, '\"' ∉ pq.1)
    (hpost : ∀ pq ∈ lines, hasQDQ pq.2 = false) :
    (list_mailboxes srv).2 =
      Except.ok (lines.map (fun pq => pq.2.filter (fun c => !(c == ' ')))) := by
  have hseq : seqOpt
      (lines.map (parse_listing_line ∘ fun pq => pq.1 ++ '\"' :: '.' :: '\"' :: pq.2)) =
      some (lines.map (fun pq => pq.2.filter (fun c => !(c == ' ')))) :=
    seqOpt_map_some lines _ _
      (fun pq hm => parse_listing_line_shape pq.1 pq.2 (hpre pq hm) (hpost pq hm))
  simp [list_mailboxes, hc, hl, hlist, hseq]

/-- Witness for C6 (amended) at a concrete input: on the listing line
`(\HasNoChildren) "." "INBOX"` the tool returns the name part with spaces
removed — the seven characters `"INBOX"` including both quotes. -/
theorem list_mailboxes_strips_delimiter_keeps_quotes_witness :
    (list_mailboxes okServer).2 =
      Except.ok ([(("(\\HasNoChildren) ".data : List Char), (" \"INBOX\"".data : List Char))].map
        (fun pq => pq.2.filter (fun c => !(c == ' ')))) :=
  list_mailboxes_strips_delimiter_keeps_quotes okServer "OK"
    [("(\\HasNoChildren) ".data, " \"INBOX\"".data)] rfl rfl rfl
    (by decide) (by decide)

/-- C7: whenever the search transaction inside `search_emails` returns a
status other than `"OK"` (without raising), the tool returns the sentinel
list `["No matching emails found."]` instead of raising an error, whatever
the criterion, value and mailbox. -/
theorem search_emails_sentinel_on_nonok_status (srv : ImapServer)
    (c v mb st : String) (ids : List String)
    (hc : srv.connectOK = true) (hl : srv.loginOK = true)
    (hs : srv.selectOK = true)
    (hq : srv.searchResp [c, v] = Except.ok (st, ids)) (hst : st ≠ "OK") :
    (search_emails srv c v mb).2 =
      Except.ok (SearchOutcome.sentinel ["No matching emails found."]) := by
  simp [search_emails, hc, hl, hs, hq, hst]

/-- Witness for C7 at a concrete input: a server answering the search with
status `"NO"` makes `search_emails` return the sentinel. -/
theorem search_emails_sentinel_on_nonok_status_witness :
    (search_emails rejectingServer "SUBJECT" "Invoice" "INBOX").2 =
      Except.ok (SearchOutcome.sentinel ["No matching emails found."]) :=
  search_emails_sentinel_on_nonok_status rejectingServer "SUBJECT" "Invoice"
    "INBOX" "NO" [] rfl rfl rfl rfl (by decide)

/-- C8: whenever the fetch transaction inside `view_email` returns a status
other than `"OK"` (without raising), the tool raises the not-found error
naming the message id instead of returning a parsed message. -/
theorem view_email_notfound_on_nonok_status (srv : ImapServer)
    (id mb st : String) (msg : EmailMessage)
    (hc : srv.connectOK = true) (hl : srv.loginOK = true)
    (hs : srv.selectOK = true)
    (hf : srv.fetchResp id = Except.ok (st, msg)) (hst : st ≠ "OK") :
    (view_email srv id mb).2 = Except.error (PyErr.notFound id) := by
  simp [view_email, hc, hl, hs, hf, hst, failWith]

/-- Witness for C8 at a concrete input: a server answering the fetch with
status `"NO"` makes `view_email` raise the not-found error for that id. -/
theorem view_email_notfound_on_nonok_status_witness :
    (view_email fetchNoServer "42" "INBOX").2 =
      Except.error (PyErr.notFound "42") :=
  view_email_notfound_on_nonok_status fetchNoServer "42" "INBOX" "NO"
    sampleMsg rfl rfl rfl rfl (by decide)

/-- C9: for a single-part message, `extract_body` returns the decoded payload
paired with the declared content type, and a decode failure propagates as an
error with no fallback — whereas in the multipart case `extract_body` never
raises (third conjunct: it always returns a value, decode failures being
skipped silently inside the scan). -/
theorem extract_body_singlepart_decode :
    (∀ (c : String) (s : String),
      extract_body (EmailPart.leaf c (some s)) = Except.ok (s, c)) ∧
    (∀ c : String, extract_body (EmailPart.leaf c none) = Except.error ()) ∧
    (∀ (c : String) (ps : PartList),
      ∃ r, extract_body (EmailPart.multi c ps) = Except.ok r) :=
  ⟨fun _ _ => rfl, fun _ => rfl, fun _ _ => ⟨_, rfl⟩⟩

/-- C10: in `check_unseen` and `search_emails`, a message id returned by the
search whose per-id fetch returns a non-"OK" status is silently omitted:
when no per-id fetch raises, both tools succeed, raising no error for the
skipped ids, and their result dictionaries contain exactly the ids whose
fetch reported success, in order. -/
theorem summary_ops_skip_nonok_fetch (srv : ImapServer)
    (c v mb stu : String) (idsU idsS : List String)
    (hc : srv.connectOK = true) (hl : srv.loginOK = true)
    (hs : srv.selectOK = true)
    (hu : srv.searchResp ["UNSEEN"] = Except.ok (stu, idsU))
    (hq : srv.searchResp [c, v] = Except.ok ("OK", idsS))
    (hfu : ∀ id ∈ idsU, ∃ p, srv.fetchResp id = Except.ok p)
    (hfs : ∀ id ∈ idsS, ∃ p, srv.fetchResp id = Except.ok p) :
    (∃ es, (check_unseen srv).2 = Except.ok es ∧
      es.map Prod.fst = okIds srv idsU) ∧
    (∃ es, (search_emails srv c v mb).2 = Except.ok (SearchOutcome.found es) ∧
      es.map Prod.fst = okIds srv idsS) := by
  obtain ⟨esU, heU, hmU⟩ := fetchLoop_all_returned srv idsU hfu
  obtain ⟨esS, heS, hmS⟩ := fetchLoop_all_returned srv idsS hfs
  constructor
  · exact ⟨esU, by simp [check_unseen, hc, hl, hs, hu, heU], hmU⟩
  · exact ⟨esS, by simp [search_emails, hc, hl, hs, hq, heS], hmS⟩

/-- Witness for C10 at a concrete input: with ids `["1", "2"]` where the
fetch of `"2"` reports status `"NO"`, both tools succeed and return entries
exactly for the ids whose fetch succeeded. -/
theorem summary_ops_skip_nonok_fetch_witness :
    (∃ es, (check_unseen mixedFetchServer).2 = Except.ok es ∧
      es.map Prod.fst = okIds mixedFetchServer ["1", "2"]) ∧
    (∃ es, (search_emails mixedFetchServer "SUBJECT" "x" "INBOX").2 =
        Except.ok (SearchOutcome.found es) ∧
      es.map Prod.fst = okIds mixedFetchServer ["1", "2"]) :=
  summary_ops_skip_nonok_fetch mixedFetchServer "SUBJECT" "x" "INBOX" "OK"
    ["1", "2"] ["1", "2"] rfl rfl rfl rfl rfl
    (fun _ _ => ⟨_, rfl⟩) (fun _ _ => ⟨_, rfl⟩)

end ImapMcp
